import Mathlib

/- Verification development for the golf_env repository.

   Shallow embedding of the two relevant source files:
   - util.py             (geometry utilities, bounds test)
   - src/golf_env.py     (class GolfEnv: reset, step, classification, rewards)

   Floating-point values are modelled as real numbers. Library calls are
   modelled as follows:
   - math.atan2(y, x) is the argument of the complex number x + y*i;
   - np.linalg.norm of a 2-vector is the Euclidean norm;
   - the Gaussian draw rng.normal(size=2, scale=[sx, sy]) is modelled by two
     arbitrary standard draws z1, z2 scaled to (z1 * sx, z2 * sy), so a zero
     scale gives exactly zero noise;
   - Python round() is round-half-to-even (pyRound below);
   - scipy interp1d (linear, default bounds_error=True) is modelled by
     green_reward_func: piecewise-linear on the knots, none out of range;
   - dictionary lookups that can raise KeyError, the explicit
     NoAreaInfoAssignedException raise, and reward evaluation errors are
     modelled with Option; the unbounded while-loop of the SHORE branch is
     modelled with explicit fuel, where running out of every finite fuel
     corresponds to non-termination of the loop. -/

namespace Util

/-- util.deg_to_rad -/
noncomputable def deg_to_rad (deg : ℝ) : ℝ := deg / 180.0 * Real.pi

/-- util.rotation_2d -/
noncomputable def rotation_2d (rot : ℝ) : Matrix (Fin 2) (Fin 2) ℝ :=
  !![Real.cos rot, -Real.sin rot;
     Real.sin rot,  Real.cos rot]

/-- util.transform_2d -/
noncomputable def transform_2d (tr_x tr_y rot : ℝ) : Matrix (Fin 3) (Fin 3) ℝ :=
  !![Real.cos rot, -Real.sin rot, tr_x;
     Real.sin rot,  Real.cos rot, tr_y;
     0, 0, 1]

/-- util.is_within, structural recursion over the three coordinate lists.
    The source loops over indices i of equal-length lists; with
    include_equality it rejects when x i is less-or-equal the lower bound or
    greater-or-equal the upper bound, without include_equality it rejects on
    strict violations only. -/
def is_within {α : Type} [LinearOrder α] :
    List α → List α → List α → Bool → Bool
  | bmin :: bminRest, bmax :: bmaxRest, xi :: xRest, include_equality =>
      if include_equality then
        if xi ≤ bmin ∨ bmax ≤ xi then false
        else is_within bminRest bmaxRest xRest include_equality
      else
        if xi < bmin ∨ bmax < xi then false
        else is_within bminRest bmaxRest xRest include_equality
  | _, _, _, _ => true

end Util

namespace GolfEnv

/-- GolfEnv.IMG_SIZE_X -/
def IMG_SIZE_X : ℤ := 500

/-- GolfEnv.IMG_SIZE_Y -/
def IMG_SIZE_Y : ℤ := 500

/-- GolfEnv.START_X -/
noncomputable def START_X : ℝ := 256

/-- GolfEnv.START_Y -/
noncomputable def START_Y : ℝ := 116

/-- GolfEnv.PIN_X -/
noncomputable def PIN_X : ℝ := 280

/-- GolfEnv.PIN_Y -/
noncomputable def PIN_Y : ℝ := 430

/-- GolfEnv.STATE_IMAGE_WIDTH -/
def STATE_IMAGE_WIDTH : ℤ := 300

/-- GolfEnv.STATE_IMAGE_HEIGHT -/
def STATE_IMAGE_HEIGHT : ℤ := 300

/-- GolfEnv.STATE_IMAGE_OFFSET_HEIGHT -/
def STATE_IMAGE_OFFSET_HEIGHT : ℤ := -20

/-- GolfEnv.OUT_OF_IMG_INTENSITY -/
def OUT_OF_IMG_INTENSITY : ℤ := 0

/-- Python round(): round half to even, other values to the nearest integer. -/
noncomputable def pyRound (x : ℝ) : ℤ :=
  if Int.fract x = 1 / 2 then (if Even ⌊x⌋ then ⌊x⌋ else ⌊x⌋ + 1)
  else round x

/-- np.linalg.norm of a 2-vector. -/
noncomputable def norm2 (v : ℝ × ℝ) : ℝ := Real.sqrt (v.1 ^ 2 + v.2 ^ 2)

/-- Euclidean distance between two 2-d points, np.linalg.norm (p - q). -/
noncomputable def dist2 (p q : ℝ × ℝ) : ℝ := norm2 (p.1 - q.1, p.2 - q.2)

/-- math.atan2(y, x), the argument of the complex number x + y*i. -/
noncomputable def atan2 (y x : ℝ) : ℝ := Complex.arg ⟨x, y⟩

/-- GolfEnv.OnLandAction -/
inductive OnLandAction
  | NONE
  | ROLLBACK
  | SHORE
deriving DecidableEq

/-- One row of the GolfEnv area info table: name, distance coefficient,
    deviation coefficient, on-land action, termination flag and reward
    function (Option models a raising reward evaluation). -/
structure AreaEntry where
  name : String
  dist_coef : ℝ
  dev_coef : ℝ
  on_land : OnLandAction
  termination : Bool
  reward : ℝ → Option ℝ

/-- The linear interpolation through the knots
    (0, -1), (1, -1), (3, -2), (15, -3), (100, -3) used by
    GolfEnv.green_reward_func, as a total function on the reals. -/
noncomputable def green_interp (d : ℝ) : ℝ :=
  if d ≤ 1 then -1
  else if d ≤ 3 then -1 + (d - 1) * (-1) / 2
  else if d ≤ 15 then -2 + (d - 3) * (-1) / 12
  else -3

/-- GolfEnv.green_reward_func: scipy interp1d on knots
    (0, -1), (1, -1), (3, -2), (15, -3), (100, -3), linear between knots,
    and, with the default bounds_error=True, failing outside [0, 100]. -/
noncomputable def green_reward_func (d : ℝ) : Option ℝ :=
  if d < 0 ∨ 100 < d then none
  else some (green_interp d)

/-- Area table row for intensity -1. -/
noncomputable def teeEntry : AreaEntry :=
  { name := "TEE", dist_coef := 1.0, dev_coef := 1.0,
    on_land := OnLandAction.NONE, termination := false,
    reward := fun _ => some (-1) }

/-- Area table row for intensity 70. -/
noncomputable def farewayEntry : AreaEntry :=
  { name := "FAREWAY", dist_coef := 1.0, dev_coef := 1.0,
    on_land := OnLandAction.NONE, termination := false,
    reward := fun _ => some (-1) }

/-- Area table row for intensity 80; its reward is
    -1 + green_reward_func d. -/
noncomputable def greenEntry : AreaEntry :=
  { name := "GREEN", dist_coef := 1.0, dev_coef := 1.0,
    on_land := OnLandAction.NONE, termination := true,
    reward := fun d => (green_reward_func d).map (fun r => -1 + r) }

/-- Area table row for intensity 50. -/
noncomputable def sandEntry : AreaEntry :=
  { name := "SAND", dist_coef := 0.6, dev_coef := 1.5,
    on_land := OnLandAction.NONE, termination := false,
    reward := fun _ => some (-1) }

/-- Area table row for intensity 5. -/
noncomputable def waterEntry : AreaEntry :=
  { name := "WATER", dist_coef := 0.4, dev_coef := 1.0,
    on_land := OnLandAction.SHORE, termination := false,
    reward := fun _ => some (-2) }

/-- Area table row for intensity 55. -/
noncomputable def roughEntry : AreaEntry :=
  { name := "ROUGH", dist_coef := 0.8, dev_coef := 1.5,
    on_land := OnLandAction.NONE, termination := false,
    reward := fun _ => some (-1) }

/-- Area table row for intensity 0. -/
noncomputable def obEntry : AreaEntry :=
  { name := "OB", dist_coef := 1.0, dev_coef := 1.0,
    on_land := OnLandAction.ROLLBACK, termination := false,
    reward := fun _ => some (-3) }

/-- GolfEnv.__area_info as a partial map from pixel intensity to entry. -/
noncomputable def area_info (code : ℤ) : Option AreaEntry :=
  if code = -1 then some teeEntry
  else if code = 70 then some farewayEntry
  else if code = 80 then some greenEntry
  else if code = 50 then some sandEntry
  else if code = 5 then some waterEntry
  else if code = 55 then some roughEntry
  else if code = 0 then some obEntry
  else none

/-- GolfEnv.__get_pixel_on.  The raster argument models self.__img_gray as a
    total map (row, column) to intensity; the numpy access
    img_gray[-y0 - 1, x0] on a 500-row image is row IMG_SIZE_Y - 1 - y0.
    Note that is_within is called with its default include_equality=True,
    which in util.py rejects coordinates equal to a bound. -/
noncomputable def get_pixel_on (raster : ℤ → ℤ → ℤ) (ball_pos : ℝ × ℝ) : ℤ :=
  let x0 := pyRound ball_pos.1
  let y0 := pyRound ball_pos.2
  if Util.is_within [0, 0] [IMG_SIZE_X - 1, IMG_SIZE_Y - 1] [x0, y0] true then
    raster (IMG_SIZE_Y - 1 - y0) x0
  else OUT_OF_IMG_INTENSITY

/-- GolfEnv.__generate_state_img as a total map from output indices to
    intensity.  The source double loop writes, for loop coordinates
    yl in [OFFSET, HEIGHT + OFFSET) and xl in [-WIDTH/2, WIDTH/2), the sample
    of t01 * (yl, xl, 1) into output cell [-sy - 1, -sx - 1] with sy, sx the
    zero-based loop counters; solving the index arithmetic, output cell (i, j)
    holds the sample at yl = HEIGHT + OFFSET - 1 - i, xl = WIDTH/2 - 1 - j. -/
noncomputable def generate_state_img (raster : ℤ → ℤ → ℤ) (x y : ℝ) :
    ℤ → ℤ → ℤ :=
  fun i j =>
    let angle_to_pin := atan2 (PIN_Y - y) (PIN_X - x)
    let t01 := Util.transform_2d x y angle_to_pin
    let yl : ℝ := ((STATE_IMAGE_HEIGHT + STATE_IMAGE_OFFSET_HEIGHT - 1 - i : ℤ) : ℝ)
    let xl : ℝ := ((STATE_IMAGE_WIDTH / 2 - 1 - j : ℤ) : ℝ)
    let p0 := Matrix.mulVec t01 ![yl, xl, 1]
    let x0 := pyRound (p0 0)
    let y0 := pyRound (p0 1)
    if Util.is_within [0, 0] [IMG_SIZE_X - 1, IMG_SIZE_Y - 1] [x0, y0] true then
      raster (IMG_SIZE_Y - 1 - y0) x0
    else OUT_OF_IMG_INTENSITY

/-- The mutable per-episode state of GolfEnv: the _state dictionary fields
    together with the private step counter and the two path history lists. -/
structure State where
  ball_pos : ℝ × ℝ
  distance_to_pin : ℝ
  landed_pixel_intensity : ℤ
  state_img : ℤ → ℤ → ℤ
  step_n : ℕ
  ball_path_x : List ℝ
  ball_path_y : List ℝ

/-- GolfEnv.reset.  The method returns (state_img, distance_to_pin) of the
    state built here. -/
noncomputable def reset (raster : ℤ → ℤ → ℤ) : State :=
  { ball_pos := (START_X, START_Y),
    distance_to_pin := dist2 (START_X, START_Y) (PIN_X, PIN_Y),
    landed_pixel_intensity := get_pixel_on raster (START_X, START_Y),
    state_img := generate_state_img raster START_X START_Y,
    step_n := 0,
    ball_path_x := [START_X],
    ball_path_y := [START_Y] }

/-- Lines 118-131 of step: look up the pre-shot area entry (a raising dict
    access, hence Option), build the shot displacement from the flight model
    output (distance, dev_x, dev_y), the two scaled Gaussian draws z1, z2 and
    the rotation by action angle plus angle to pin, and land.
    flight is the result of self._get_flight_model(action[1]). -/
noncomputable def landing_pos (table : ℤ → Option AreaEntry)
    (flight : ℝ × ℝ × ℝ) (z1 z2 : ℝ) (s : State) (action : ℝ × ℝ) :
    Option (ℝ × ℝ) :=
  match table s.landed_pixel_intensity with
  | none => none
  | some info =>
    let reduced_distance := flight.1 * info.dist_coef
    let angle_to_pin := atan2 (PIN_Y - s.ball_pos.2) (PIN_X - s.ball_pos.1)
    let shoot : ℝ × ℝ :=
      (reduced_distance + z1 * (flight.2.1 * info.dev_coef),
       z2 * (flight.2.2 * info.dev_coef))
    let delta := Matrix.mulVec
      (Util.rotation_2d (Util.deg_to_rad action.1 + angle_to_pin))
      ![shoot.1, shoot.2]
    some (s.ball_pos.1 + delta 0, s.ball_pos.2 + delta 1)

/-- Lines 167-168 of step: the drift direction of the SHORE branch, the
    vector from the pin to the landing position divided by its norm. -/
noncomputable def from_pin_unit (p : ℝ × ℝ) : ℝ × ℝ :=
  let v : ℝ × ℝ := (p.1 - PIN_X, p.2 - PIN_Y)
  (v.1 / norm2 v, v.2 / norm2 v)

/-- Lines 170-173 of step: the while-True drift loop of the SHORE branch,
    with explicit fuel.  Each iteration first moves by u, then exits as soon
    as the classification of the moved position does not map to SHORE.  A
    none result for every fuel models non-termination of the source loop; an
    in-loop lookup of an unmapped code (a KeyError in the source) is also
    none. -/
noncomputable def shore_walk (table : ℤ → Option AreaEntry)
    (raster : ℤ → ℤ → ℤ) (u : ℝ × ℝ) : ℕ → ℝ × ℝ → Option (ℝ × ℝ)
  | 0, _ => none
  | fuel + 1, pos =>
    let next := (pos.1 + u.1, pos.2 + u.2)
    match table (get_pixel_on raster next) with
    | none => none
    | some e =>
      if e.on_land = OnLandAction.SHORE then shore_walk table raster u fuel next
      else some next

/-- Lines 133-199 of step, from the landing position on: classify the
    landing, look up its area entry (raising NoAreaInfoAssignedException,
    hence Option, when absent), compute the landing distance to pin, evaluate
    the reward there, then dispatch on the on-land action.  Returns the new
    state together with the returned (reward, termination). -/
noncomputable def step_resolve (table : ℤ → Option AreaEntry)
    (raster : ℤ → ℤ → ℤ) (fuel : ℕ) (s : State) (new_ball_pos : ℝ × ℝ) :
    Option (State × ℝ × Bool) :=
  let step_n := s.step_n + 1
  let path_x := s.ball_path_x ++ [new_ball_pos.1]
  let path_y := s.ball_path_y ++ [new_ball_pos.2]
  let new_pixel := get_pixel_on raster new_ball_pos
  match table new_pixel with
  | none => none
  | some area =>
    let distance_to_pin := dist2 new_ball_pos (PIN_X, PIN_Y)
    match area.reward distance_to_pin with
    | none => none
    | some reward =>
      match area.on_land with
      | OnLandAction.NONE =>
        some ({ ball_pos := new_ball_pos,
                distance_to_pin := distance_to_pin,
                landed_pixel_intensity := new_pixel,
                state_img :=
                  generate_state_img raster new_ball_pos.1 new_ball_pos.2,
                step_n := step_n,
                ball_path_x := path_x, ball_path_y := path_y },
              reward, area.termination)
      | OnLandAction.ROLLBACK =>
        some ({ s with
                step_n := step_n
                ball_path_x := path_x ++ [s.ball_pos.1]
                ball_path_y := path_y ++ [s.ball_pos.2] },
              reward, area.termination)
      | OnLandAction.SHORE =>
        match shore_walk table raster (from_pin_unit new_ball_pos) fuel
            new_ball_pos with
        | none => none
        | some final_pos =>
          some ({ ball_pos := final_pos,
                  distance_to_pin := distance_to_pin,
                  landed_pixel_intensity := new_pixel,
                  state_img :=
                    generate_state_img raster final_pos.1 final_pos.2,
                  step_n := step_n,
                  ball_path_x := path_x ++ [final_pos.1],
                  ball_path_y := path_y ++ [final_pos.2] },
                reward, area.termination)

/-- GolfEnv.step.  The method returns ((state_img, distance_to_pin), reward,
    termination) of the produced state; the state fields themselves carry the
    same information, so the transition is returned as (state, reward,
    termination). -/
noncomputable def step (table : ℤ → Option AreaEntry) (raster : ℤ → ℤ → ℤ)
    (fuel : ℕ) (flight : ℝ × ℝ × ℝ) (z1 z2 : ℝ) (s : State)
    (action : ℝ × ℝ) : Option (State × ℝ × Bool) :=
  match landing_pos table flight z1 z2 s action with
  | none => none
  | some p => step_resolve table raster fuel s p

end GolfEnv

namespace GolfEnv

lemma area_info_tee : area_info (-1) = some teeEntry := rfl

lemma area_info_fareway : area_info 70 = some farewayEntry := by
  norm_num [area_info]

lemma area_info_green : area_info 80 = some greenEntry := by
  norm_num [area_info]

lemma area_info_water : area_info 5 = some waterEntry := by
  norm_num [area_info]

lemma area_info_ob : area_info 0 = some obEntry := by
  norm_num [area_info]

lemma pyRound_intCast (n : ℤ) : pyRound (n : ℝ) = n := by
  unfold pyRound
  rw [Int.fract_intCast, round_intCast]
  norm_num

lemma is_within_two_iff {α : Type} [LinearOrder α] {m1 m2 M1 M2 x1 x2 : α} :
    Util.is_within [m1, m2] [M1, M2] [x1, x2] true = true ↔
      (m1 < x1 ∧ x1 < M1 ∧ m2 < x2 ∧ x2 < M2) := by
  show (if x1 ≤ m1 ∨ M1 ≤ x1 then false
    else if x2 ≤ m2 ∨ M2 ≤ x2 then false else true) = true ↔ _
  split_ifs with h1 h2
  · simp only [Bool.false_eq_true, false_iff]
    intro hc
    rcases h1 with h | h
    · exact absurd hc.1 (not_lt.mpr h)
    · exact absurd hc.2.1 (not_lt.mpr h)
  · simp only [Bool.false_eq_true, false_iff]
    intro hc
    rcases h2 with h | h
    · exact absurd hc.2.2.1 (not_lt.mpr h)
    · exact absurd hc.2.2.2 (not_lt.mpr h)
  · push_neg at h1 h2
    simp only [true_iff]
    exact ⟨h1.1, h1.2, h2.1, h2.2⟩

lemma get_pixel_on_cast (raster : ℤ → ℤ → ℤ) (a b : ℤ) :
    get_pixel_on raster ((a : ℝ), (b : ℝ)) =
      if 0 < a ∧ a < 499 ∧ 0 < b ∧ b < 499 then raster (499 - b) a else 0 := by
  have e1 : IMG_SIZE_X - 1 = (499 : ℤ) := by norm_num [IMG_SIZE_X]
  have e2 : IMG_SIZE_Y - 1 = (499 : ℤ) := by norm_num [IMG_SIZE_Y]
  simp only [get_pixel_on, pyRound_intCast, OUT_OF_IMG_INTENSITY, e1, e2]
  by_cases h : 0 < a ∧ a < 499 ∧ 0 < b ∧ b < 499
  · rw [if_pos (is_within_two_iff.mpr ⟨h.1, h.2.1, h.2.2.1, h.2.2.2⟩), if_pos h]
  · rw [if_neg (fun hc => h (is_within_two_iff.mp hc)), if_neg h]

lemma norm2_eq_complex_abs (x y : ℝ) : norm2 (x, y) = Complex.abs ⟨x, y⟩ := by
  rw [Complex.abs_apply, Complex.normSq_mk, norm2]
  congr 1
  ring

lemma cos_atan2 (y x : ℝ) (h : ¬(x = 0 ∧ y = 0)) :
    Real.cos (atan2 y x) = x / norm2 (x, y) := by
  rw [atan2, norm2_eq_complex_abs]
  apply Complex.cos_arg
  intro hz
  apply h
  constructor
  · have hre := congrArg Complex.re hz
    simpa using hre
  · have him := congrArg Complex.im hz
    simpa using him

lemma sin_atan2 (y x : ℝ) : Real.sin (atan2 y x) = y / norm2 (x, y) := by
  rw [atan2, norm2_eq_complex_abs]
  exact Complex.sin_arg ⟨x, y⟩

lemma atan2_up (y : ℝ) (hy : 0 < y) : atan2 y 0 = Real.pi / 2 := by
  rw [atan2, Complex.arg_eq_pi_div_two_iff]
  exact ⟨rfl, hy⟩

lemma dist2_vertical (x y1 y2 : ℝ) : dist2 (x, y1) (x, y2) = |y1 - y2| := by
  rw [dist2, norm2]
  simp only [sub_self]
  rw [show (0:ℝ) ^ 2 + (y1 - y2) ^ 2 = (y1 - y2) ^ 2 by ring,
    Real.sqrt_sq_eq_abs]

lemma rotation_mulVec (t a b : ℝ) :
    Matrix.mulVec (Util.rotation_2d t) ![a, b] =
      ![Real.cos t * a - Real.sin t * b, Real.sin t * a + Real.cos t * b] := by
  funext i
  fin_cases i
  · simp [Util.rotation_2d, Matrix.mulVec, Matrix.dotProduct,
      Fin.sum_univ_two]
    ring
  · simp [Util.rotation_2d, Matrix.mulVec, Matrix.dotProduct,
      Fin.sum_univ_two]

end GolfEnv
namespace GolfEnv

lemma deg_to_rad_zero : Util.deg_to_rad 0 = 0 := by
  simp [Util.deg_to_rad]

lemma landing_pos_vertical (table : ℤ → Option AreaEntry) (F z1 z2 club : ℝ)
    (s : State) (e : AreaEntry) (h : table s.landed_pixel_intensity = some e)
    (hx : s.ball_pos.1 = 280) (hy : s.ball_pos.2 < 430) :
    landing_pos table (F, 0, 0) z1 z2 s (0, club) =
      some (s.ball_pos.1, s.ball_pos.2 + F * e.dist_coef) := by
  have hpx : PIN_X - s.ball_pos.1 = 0 := by rw [hx, PIN_X]; ring
  have hpy : 0 < PIN_Y - s.ball_pos.2 := by rw [PIN_Y]; linarith
  simp only [landing_pos, h, hpx]
  rw [atan2_up _ hpy, deg_to_rad_zero, zero_add, rotation_mulVec]
  simp only [Real.cos_pi_div_two, Real.sin_pi_div_two,
    Matrix.cons_val_zero, Matrix.cons_val_one, Matrix.head_cons]
  norm_num

end GolfEnv
namespace GolfEnv

/-- Concrete raster for test runs: WATER (5) at pixel (x, y) = (280, 100),
    which is raster address (399, 280), FAREWAY (70) everywhere else. -/
def testRaster (r c : ℤ) : ℤ := if r = 399 ∧ c = 280 then 5 else 70

/-- Concrete pre-step state: ball at (280, 50) on the tee. -/
noncomputable def cexS0 : State :=
  { ball_pos := (280, 50), distance_to_pin := 380,
    landed_pixel_intensity := -1, state_img := fun _ _ => 0,
    step_n := 0, ball_path_x := [280], ball_path_y := [50] }

lemma norm2_eval (x y c : ℝ) (hc : 0 ≤ c) (h : x ^ 2 + y ^ 2 = c ^ 2) :
    norm2 (x, y) = c := by
  rw [norm2]
  show Real.sqrt (x ^ 2 + y ^ 2) = c
  rw [h, Real.sqrt_sq hc]

lemma shore_walk_succ (table : ℤ → Option AreaEntry) (raster : ℤ → ℤ → ℤ)
    (u : ℝ × ℝ) (fuel : ℕ) (pos : ℝ × ℝ) :
    shore_walk table raster u (fuel + 1) pos =
      match table (get_pixel_on raster (pos.1 + u.1, pos.2 + u.2)) with
      | none => none
      | some e => if e.on_land = OnLandAction.SHORE
          then shore_walk table raster u fuel (pos.1 + u.1, pos.2 + u.2)
          else some (pos.1 + u.1, pos.2 + u.2) := rfl

lemma cex1_landing :
    landing_pos area_info (50, 0, 0) 0 0 cexS0 (0, 30) =
      some ((280 : ℝ), (100 : ℝ)) := by
  rw [landing_pos_vertical area_info 50 0 0 30 cexS0 teeEntry area_info_tee
    rfl (by norm_num [cexS0])]
  norm_num [cexS0, teeEntry]

lemma cex1_pixel : get_pixel_on testRaster ((280 : ℝ), (100 : ℝ)) = 5 := by
  have h : (((280 : ℝ), (100 : ℝ)) : ℝ × ℝ) = (((280 : ℤ) : ℝ), ((100 : ℤ) : ℝ)) := by
    norm_num
  rw [h, get_pixel_on_cast]
  norm_num [testRaster]

lemma cex99_pixel : get_pixel_on testRaster ((280 : ℝ) + 0, (100 : ℝ) + -1) = 70 := by
  have h : (((280 : ℝ) + 0, (100 : ℝ) + -1) : ℝ × ℝ) =
      (((280 : ℤ) : ℝ), ((99 : ℤ) : ℝ)) := by norm_num
  rw [h, get_pixel_on_cast]
  norm_num [testRaster]

lemma cex1_unit : from_pin_unit ((280 : ℝ), (100 : ℝ)) = (0, -1) := by
  rw [from_pin_unit]
  show ((((280 : ℝ)) - PIN_X) / norm2 ((280 : ℝ) - PIN_X, (100 : ℝ) - PIN_Y),
    (((100 : ℝ)) - PIN_Y) / norm2 ((280 : ℝ) - PIN_X, (100 : ℝ) - PIN_Y)) = (0, -1)
  rw [norm2_eval ((280 : ℝ) - PIN_X) ((100 : ℝ) - PIN_Y) 330 (by norm_num)
    (by rw [PIN_X, PIN_Y]; norm_num)]
  rw [PIN_X, PIN_Y]
  norm_num

lemma cex1_walk :
    shore_walk area_info testRaster (0, -1) 10 ((280 : ℝ), (100 : ℝ)) =
      some (280, 99) := by
  have hne : farewayEntry.on_land ≠ OnLandAction.SHORE := by
    rw [show farewayEntry.on_land = OnLandAction.NONE from rfl]
    intro h
    exact OnLandAction.noConfusion h
  rw [show (10 : ℕ) = 9 + 1 from rfl, shore_walk_succ]
  simp only [cex99_pixel, area_info_fareway]
  rw [if_neg hne]
  norm_num

end GolfEnv
namespace GolfEnv

/-- The state committed by the concrete SHORE run below. -/
noncomputable def cexS1 : State :=
  { ball_pos := (280, 99), distance_to_pin := 330,
    landed_pixel_intensity := 5,
    state_img := generate_state_img testRaster 280 99,
    step_n := 1, ball_path_x := [280, 280, 280],
    ball_path_y := [50, 100, 99] }

lemma cex1_dist : dist2 ((280 : ℝ), (100 : ℝ)) (PIN_X, PIN_Y) = 330 := by
  rw [dist2]
  show norm2 ((280 : ℝ) - PIN_X, (100 : ℝ) - PIN_Y) = 330
  exact norm2_eval _ _ 330 (by norm_num) (by rw [PIN_X, PIN_Y]; norm_num)

lemma cex1_step :
    step area_info testRaster 10 (50, 0, 0) 0 0 cexS0 (0, 30) =
      some (cexS1, -2, false) := by
  simp only [step, cex1_landing]
  simp only [step_resolve, cex1_pixel, area_info_water]
  simp only [waterEntry, cex1_unit, cex1_walk, cex1_dist]
  simp only [cexS0, cexS1, State.mk.injEq, Prod.mk.injEq]
  norm_num

end GolfEnv
namespace GolfEnv

lemma step_resolve_shore (table : ℤ → Option AreaEntry) (raster : ℤ → ℤ → ℤ)
    (fuel : ℕ) (s : State) (p : ℝ × ℝ) (e : AreaEntry)
    (out : State × ℝ × Bool)
    (he : table (get_pixel_on raster p) = some e)
    (hsh : e.on_land = OnLandAction.SHORE)
    (hstep : step_resolve table raster fuel s p = some out) :
    ∃ q, shore_walk table raster (from_pin_unit p) fuel p = some q ∧
      out.1.ball_pos = q ∧
      out.1.distance_to_pin = dist2 p (PIN_X, PIN_Y) ∧
      out.1.landed_pixel_intensity = get_pixel_on raster p ∧
      out.1.state_img = generate_state_img raster q.1 q.2 := by
  simp only [step_resolve, he, hsh] at hstep
  cases hr : e.reward (dist2 p (PIN_X, PIN_Y)) with
  | none =>
    rw [hr] at hstep
    exact absurd hstep (by simp)
  | some r =>
    rw [hr] at hstep
    cases hw : shore_walk table raster (from_pin_unit p) fuel p with
    | none =>
      rw [hw] at hstep
      exact absurd hstep (by simp)
    | some q =>
      rw [hw] at hstep
      have hout := (Option.some.inj hstep).symm
      subst hout
      exact ⟨q, rfl, rfl, rfl, rfl, rfl⟩

lemma shore_walk_lands_off_shore (table : ℤ → Option AreaEntry)
    (raster : ℤ → ℤ → ℤ) (u : ℝ × ℝ) :
    ∀ (fuel : ℕ) (pos q : ℝ × ℝ),
      shore_walk table raster u fuel pos = some q →
      ∃ e, table (get_pixel_on raster q) = some e ∧
        e.on_land ≠ OnLandAction.SHORE := by
  intro fuel
  induction fuel with
  | zero =>
    intro pos q h
    exact absurd h (by simp [shore_walk])
  | succ n ih =>
    intro pos q h
    rw [shore_walk_succ] at h
    cases he : table (get_pixel_on raster (pos.1 + u.1, pos.2 + u.2)) with
    | none =>
      simp only [he] at h
      exact absurd h (by simp)
    | some e =>
      simp only [he] at h
      by_cases hsh : e.on_land = OnLandAction.SHORE
      · rw [if_pos hsh] at h
        exact ih _ _ h
      · rw [if_neg hsh] at h
        have hq := Option.some.inj h
        subst hq
        exact ⟨e, he, hsh⟩

lemma step_resolve_rollback (table : ℤ → Option AreaEntry)
    (raster : ℤ → ℤ → ℤ) (fuel : ℕ) (s : State) (p : ℝ × ℝ) (e : AreaEntry)
    (out : State × ℝ × Bool)
    (he : table (get_pixel_on raster p) = some e)
    (hrb : e.on_land = OnLandAction.ROLLBACK)
    (hstep : step_resolve table raster fuel s p = some out) :
    out.1 = { s with
              step_n := s.step_n + 1
              ball_path_x := (s.ball_path_x ++ [p.1]) ++ [s.ball_pos.1]
              ball_path_y := (s.ball_path_y ++ [p.2]) ++ [s.ball_pos.2] } := by
  simp only [step_resolve, he, hrb] at hstep
  cases hr : e.reward (dist2 p (PIN_X, PIN_Y)) with
  | none =>
    rw [hr] at hstep
    exact absurd hstep (by simp)
  | some r =>
    rw [hr] at hstep
    have hout := (Option.some.inj hstep).symm
    subst hout
    rfl

lemma step_resolve_green (raster : ℤ → ℤ → ℤ) (fuel : ℕ) (s : State)
    (p : ℝ × ℝ) (out : State × ℝ × Bool)
    (hpix : get_pixel_on raster p = 80)
    (hstep : step_resolve area_info raster fuel s p = some out) :
    out.2.1 = -1 + green_interp (dist2 p (PIN_X, PIN_Y)) ∧
      0 ≤ dist2 p (PIN_X, PIN_Y) ∧ dist2 p (PIN_X, PIN_Y) ≤ 100 := by
  simp only [step_resolve, hpix, area_info_green] at hstep
  have hon : greenEntry.on_land = OnLandAction.NONE := rfl
  rw [hon] at hstep
  have hgr : greenEntry.reward (dist2 p (PIN_X, PIN_Y)) =
      (green_reward_func (dist2 p (PIN_X, PIN_Y))).map (fun r => -1 + r) := rfl
  cases hg : green_reward_func (dist2 p (PIN_X, PIN_Y)) with
  | none =>
    rw [hgr, hg] at hstep
    exact absurd hstep (by simp)
  | some v =>
    rw [hgr, hg] at hstep
    simp only [Option.map_some'] at hstep
    have hout := (Option.some.inj hstep).symm
    subst hout
    have hdom0 : ¬(dist2 p (PIN_X, PIN_Y) < 0 ∨
        100 < dist2 p (PIN_X, PIN_Y)) := by
      intro hc
      rw [green_reward_func, if_pos hc] at hg
      exact Option.noConfusion hg
    have hdom := hdom0
    push_neg at hdom
    have hv : v = green_interp (dist2 p (PIN_X, PIN_Y)) := by
      rw [green_reward_func, if_neg hdom0] at hg
      exact (Option.some.inj hg).symm
    refine ⟨?_, hdom.1, hdom.2⟩
    show -1 + v = -1 + green_interp (dist2 p (PIN_X, PIN_Y))
    rw [hv]

end GolfEnv
namespace GolfEnv

lemma step_eq_resolve (table : ℤ → Option AreaEntry) (raster : ℤ → ℤ → ℤ)
    (fuel : ℕ) (flight : ℝ × ℝ × ℝ) (z1 z2 : ℝ) (s : State) (action : ℝ × ℝ)
    (p : ℝ × ℝ)
    (hland : landing_pos table flight z1 z2 s action = some p) :
    step table raster fuel flight z1 z2 s action =
      step_resolve table raster fuel s p := by
  simp only [step, hland]

/-- C1 (corrected): when a step lands on a SHORE terrain and the drift loop
    finishes, the engine commits the drifted position, but the committed
    distance_to_pin and terrain code are the ones computed at the pre-drift
    landing position: distance_to_pin = dist2 landing pin and the stored code
    is the classification of the landing, not of the committed position.
    The observation image alone is regenerated at the committed position. -/
theorem C1_shore_commits_stale (raster : ℤ → ℤ → ℤ) (fuel : ℕ)
    (flight : ℝ × ℝ × ℝ) (z1 z2 : ℝ) (s : State) (action : ℝ × ℝ)
    (p : ℝ × ℝ) (e : AreaEntry) (out : State × ℝ × Bool)
    (hland : landing_pos area_info flight z1 z2 s action = some p)
    (he : area_info (get_pixel_on raster p) = some e)
    (hsh : e.on_land = OnLandAction.SHORE)
    (hstep : step area_info raster fuel flight z1 z2 s action = some out) :
    shore_walk area_info raster (from_pin_unit p) fuel p =
        some out.1.ball_pos ∧
      out.1.distance_to_pin = dist2 p (PIN_X, PIN_Y) ∧
      out.1.landed_pixel_intensity = get_pixel_on raster p ∧
      out.1.state_img =
        generate_state_img raster out.1.ball_pos.1 out.1.ball_pos.2 := by
  rw [step_eq_resolve area_info raster fuel flight z1 z2 s action p hland]
    at hstep
  obtain ⟨q, hw, hb, hd, hc, hi⟩ :=
    step_resolve_shore area_info raster fuel s p e out he hsh hstep
  refine ⟨?_, hd, hc, ?_⟩
  · rw [hb]
    exact hw
  · rw [hb]
    exact hi

/-- C1 witness: a concrete SHORE run with all hypotheses discharged. -/
theorem C1_shore_commits_stale_witness :
    landing_pos area_info (50, 0, 0) 0 0 cexS0 (0, 30) =
        some ((280 : ℝ), (100 : ℝ)) ∧
      area_info (get_pixel_on testRaster ((280 : ℝ), (100 : ℝ))) =
        some waterEntry ∧
      waterEntry.on_land = OnLandAction.SHORE ∧
      step area_info testRaster 10 (50, 0, 0) 0 0 cexS0 (0, 30) =
        some (cexS1, -2, false) ∧
      (shore_walk area_info testRaster
          (from_pin_unit ((280 : ℝ), (100 : ℝ))) 10 ((280 : ℝ), (100 : ℝ)) =
          some ((cexS1, (-2 : ℝ), false)).1.ball_pos ∧
        ((cexS1, (-2 : ℝ), false)).1.distance_to_pin =
          dist2 ((280 : ℝ), (100 : ℝ)) (PIN_X, PIN_Y) ∧
        ((cexS1, (-2 : ℝ), false)).1.landed_pixel_intensity =
          get_pixel_on testRaster ((280 : ℝ), (100 : ℝ)) ∧
        ((cexS1, (-2 : ℝ), false)).1.state_img =
          generate_state_img testRaster
            ((cexS1, (-2 : ℝ), false)).1.ball_pos.1
            ((cexS1, (-2 : ℝ), false)).1.ball_pos.2) :=
  ⟨cex1_landing, by rw [cex1_pixel]; exact area_info_water, rfl, cex1_step,
    C1_shore_commits_stale testRaster 10 (50, 0, 0) 0 0 cexS0 (0, 30)
      ((280 : ℝ), (100 : ℝ)) waterEntry (cexS1, -2, false) cex1_landing
      (by rw [cex1_pixel]; exact area_info_water) rfl cex1_step⟩

lemma cex1_dist99 : dist2 ((280 : ℝ), (99 : ℝ)) (PIN_X, PIN_Y) = 331 := by
  rw [dist2]
  show norm2 ((280 : ℝ) - PIN_X, (99 : ℝ) - PIN_Y) = 331
  exact norm2_eval _ _ 331 (by norm_num) (by rw [PIN_X, PIN_Y]; norm_num)

lemma cex99b_pixel : get_pixel_on testRaster ((280 : ℝ), (99 : ℝ)) = 70 := by
  have h : (((280 : ℝ), (99 : ℝ)) : ℝ × ℝ) =
      (((280 : ℤ) : ℝ), ((99 : ℤ) : ℝ)) := by norm_num
  rw [h, get_pixel_on_cast]
  norm_num [testRaster]

/-- C1 counterexample: in the concrete SHORE run the committed state stores
    distance 330 and code 5 (WATER), while the committed ball position
    (280, 99) has distance 331 to the pin and classification 70 (FAREWAY). -/
theorem C1_counterexample :
    step area_info testRaster 10 (50, 0, 0) 0 0 cexS0 (0, 30) =
        some (cexS1, -2, false) ∧
      cexS1.distance_to_pin ≠ dist2 cexS1.ball_pos (PIN_X, PIN_Y) ∧
      cexS1.landed_pixel_intensity ≠ get_pixel_on testRaster cexS1.ball_pos := by
  refine ⟨cex1_step, ?_, ?_⟩
  · show (330 : ℝ) ≠ dist2 ((280 : ℝ), (99 : ℝ)) (PIN_X, PIN_Y)
    rw [cex1_dist99]
    norm_num
  · show (5 : ℤ) ≠ get_pixel_on testRaster ((280 : ℝ), (99 : ℝ))
    rw [cex99b_pixel]
    norm_num

/-- C6 (confirmed): when a step lands on a SHORE terrain and the drift loop
    finishes, the classification of the committed post-step ball position
    maps to an entry whose on-land action is not SHORE. -/
theorem C6_committed_not_shore (raster : ℤ → ℤ → ℤ) (fuel : ℕ)
    (flight : ℝ × ℝ × ℝ) (z1 z2 : ℝ) (s : State) (action : ℝ × ℝ)
    (p : ℝ × ℝ) (e : AreaEntry) (out : State × ℝ × Bool)
    (hland : landing_pos area_info flight z1 z2 s action = some p)
    (he : area_info (get_pixel_on raster p) = some e)
    (hsh : e.on_land = OnLandAction.SHORE)
    (hstep : step area_info raster fuel flight z1 z2 s action = some out) :
    ∃ e2, area_info (get_pixel_on raster out.1.ball_pos) = some e2 ∧
      e2.on_land ≠ OnLandAction.SHORE := by
  rw [step_eq_resolve area_info raster fuel flight z1 z2 s action p hland]
    at hstep
  obtain ⟨q, hw, hb, -, -, -⟩ :=
    step_resolve_shore area_info raster fuel s p e out he hsh hstep
  rw [hb]
  exact shore_walk_lands_off_shore area_info raster (from_pin_unit p)
    fuel p q hw

/-- C6 witness: the concrete SHORE run, committed position classified as
    FAREWAY whose action is NONE. -/
theorem C6_committed_not_shore_witness :
    step area_info testRaster 10 (50, 0, 0) 0 0 cexS0 (0, 30) =
        some (cexS1, -2, false) ∧
      (∃ e2, area_info
          (get_pixel_on testRaster ((cexS1, (-2 : ℝ), false)).1.ball_pos) =
          some e2 ∧ e2.on_land ≠ OnLandAction.SHORE) :=
  ⟨cex1_step,
    C6_committed_not_shore testRaster 10 (50, 0, 0) 0 0 cexS0 (0, 30)
      ((280 : ℝ), (100 : ℝ)) waterEntry (cexS1, -2, false) cex1_landing
      (by rw [cex1_pixel]; exact area_info_water) rfl cex1_step⟩

end GolfEnv
namespace GolfEnv

/-- C5 (confirmed): when a step lands on a terrain whose on-land action is
    ROLLBACK, the post-step ball position, distance_to_pin, terrain code and
    observation image all equal their pre-step values; only the step counter
    advances, and the path history receives the discarded landing followed by
    the unchanged position a second time. -/
theorem C5_rollback_unchanged (raster : ℤ → ℤ → ℤ) (fuel : ℕ)
    (flight : ℝ × ℝ × ℝ) (z1 z2 : ℝ) (s : State) (action : ℝ × ℝ)
    (p : ℝ × ℝ) (e : AreaEntry) (out : State × ℝ × Bool)
    (hland : landing_pos area_info flight z1 z2 s action = some p)
    (he : area_info (get_pixel_on raster p) = some e)
    (hrb : e.on_land = OnLandAction.ROLLBACK)
    (hstep : step area_info raster fuel flight z1 z2 s action = some out) :
    out.1.ball_pos = s.ball_pos ∧
      out.1.distance_to_pin = s.distance_to_pin ∧
      out.1.landed_pixel_intensity = s.landed_pixel_intensity ∧
      out.1.state_img = s.state_img ∧
      out.1.step_n = s.step_n + 1 ∧
      out.1.ball_path_x = s.ball_path_x ++ [p.1, s.ball_pos.1] ∧
      out.1.ball_path_y = s.ball_path_y ++ [p.2, s.ball_pos.2] := by
  rw [step_eq_resolve area_info raster fuel flight z1 z2 s action p hland]
    at hstep
  have h1 := step_resolve_rollback area_info raster fuel s p e out he hrb hstep
  rw [h1]
  refine ⟨rfl, rfl, rfl, rfl, rfl, ?_, ?_⟩
  · show (s.ball_path_x ++ [p.1]) ++ [s.ball_pos.1] = _
    rw [List.append_assoc]
    rfl
  · show (s.ball_path_y ++ [p.2]) ++ [s.ball_pos.2] = _
    rw [List.append_assoc]
    rfl

/-- The state after the concrete ROLLBACK run: as before the step, the step
    counter incremented and the path extended by the discarded landing
    (280, 600) and the unchanged position (280, 50). -/
noncomputable def cexS5 : State :=
  { ball_pos := (280, 50), distance_to_pin := 380,
    landed_pixel_intensity := -1, state_img := fun _ _ => 0,
    step_n := 1, ball_path_x := [280, 280, 280],
    ball_path_y := [50, 600, 50] }

lemma cex5_landing :
    landing_pos area_info (550, 0, 0) 0 0 cexS0 (0, 30) =
      some ((280 : ℝ), (600 : ℝ)) := by
  rw [landing_pos_vertical area_info 550 0 0 30 cexS0 teeEntry area_info_tee
    rfl (by norm_num [cexS0])]
  norm_num [cexS0, teeEntry]

lemma cex5_pixel : get_pixel_on testRaster ((280 : ℝ), (600 : ℝ)) = 0 := by
  have h : (((280 : ℝ), (600 : ℝ)) : ℝ × ℝ) =
      (((280 : ℤ) : ℝ), ((600 : ℤ) : ℝ)) := by norm_num
  rw [h, get_pixel_on_cast]
  norm_num

lemma cex5_step :
    step area_info testRaster 10 (550, 0, 0) 0 0 cexS0 (0, 30) =
      some (cexS5, -3, false) := by
  simp only [step, cex5_landing]
  simp only [step_resolve, cex5_pixel, area_info_ob]
  simp only [obEntry]
  simp only [cexS0, cexS5, State.mk.injEq, Prod.mk.injEq]
  norm_num

/-- C5 witness: a concrete out-of-image (OB, ROLLBACK) run with all
    hypotheses discharged. -/
theorem C5_rollback_unchanged_witness :
    landing_pos area_info (550, 0, 0) 0 0 cexS0 (0, 30) =
        some ((280 : ℝ), (600 : ℝ)) ∧
      area_info (get_pixel_on testRaster ((280 : ℝ), (600 : ℝ))) =
        some obEntry ∧
      obEntry.on_land = OnLandAction.ROLLBACK ∧
      step area_info testRaster 10 (550, 0, 0) 0 0 cexS0 (0, 30) =
        some (cexS5, -3, false) ∧
      (((cexS5, (-3 : ℝ), false)).1.ball_pos = cexS0.ball_pos ∧
        ((cexS5, (-3 : ℝ), false)).1.distance_to_pin =
          cexS0.distance_to_pin ∧
        ((cexS5, (-3 : ℝ), false)).1.landed_pixel_intensity =
          cexS0.landed_pixel_intensity ∧
        ((cexS5, (-3 : ℝ), false)).1.state_img = cexS0.state_img ∧
        ((cexS5, (-3 : ℝ), false)).1.step_n = cexS0.step_n + 1 ∧
        ((cexS5, (-3 : ℝ), false)).1.ball_path_x =
          cexS0.ball_path_x ++ [(280 : ℝ), cexS0.ball_pos.1] ∧
        ((cexS5, (-3 : ℝ), false)).1.ball_path_y =
          cexS0.ball_path_y ++ [(600 : ℝ), cexS0.ball_pos.2]) :=
  ⟨cex5_landing, by rw [cex5_pixel]; exact area_info_ob, rfl, cex5_step,
    C5_rollback_unchanged testRaster 10 (550, 0, 0) 0 0 cexS0 (0, 30)
      ((280 : ℝ), (600 : ℝ)) obEntry (cexS5, -3, false) cex5_landing
      (by rw [cex5_pixel]; exact area_info_ob) rfl cex5_step⟩

end GolfEnv
namespace GolfEnv

/-- Concrete raster for the green-reward runs: GREEN (80) at the pin pixel
    (280, 430), raster address (69, 280), and at pixel (280, 329), raster
    address (170, 280); FAREWAY (70) everywhere else. -/
def testRaster2 (r c : ℤ) : ℤ :=
  if c = 280 ∧ (r = 69 ∨ r = 170) then 80 else 70

/-- Concrete pre-step state for the first green run: ball at (280, 380). -/
noncomputable def c2s0 : State :=
  { ball_pos := (280, 380), distance_to_pin := 50,
    landed_pixel_intensity := -1, state_img := fun _ _ => 0,
    step_n := 0, ball_path_x := [280], ball_path_y := [380] }

/-- Concrete pre-step state for the second green run: ball at (280, 228). -/
noncomputable def c2s0b : State :=
  { ball_pos := (280, 228), distance_to_pin := 202,
    landed_pixel_intensity := -1, state_img := fun _ _ => 0,
    step_n := 0, ball_path_x := [280], ball_path_y := [228] }

/-- The state committed by the first green run. -/
noncomputable def c2s1 : State :=
  { ball_pos := (280, 430), distance_to_pin := 0,
    landed_pixel_intensity := 80,
    state_img := generate_state_img testRaster2 280 430,
    step_n := 1, ball_path_x := [280, 280], ball_path_y := [380, 430] }

lemma c2_pixel430 : get_pixel_on testRaster2 ((280 : ℝ), (430 : ℝ)) = 80 := by
  have h : (((280 : ℝ), (430 : ℝ)) : ℝ × ℝ) =
      (((280 : ℤ) : ℝ), ((430 : ℤ) : ℝ)) := by norm_num
  rw [h, get_pixel_on_cast]
  norm_num [testRaster2]

lemma c2_pixel329 : get_pixel_on testRaster2 ((280 : ℝ), (329 : ℝ)) = 80 := by
  have h : (((280 : ℝ), (329 : ℝ)) : ℝ × ℝ) =
      (((280 : ℤ) : ℝ), ((329 : ℤ) : ℝ)) := by norm_num
  rw [h, get_pixel_on_cast]
  norm_num [testRaster2]

lemma c2_dist430 : dist2 ((280 : ℝ), (430 : ℝ)) (PIN_X, PIN_Y) = 0 := by
  rw [dist2]
  show norm2 ((280 : ℝ) - PIN_X, (430 : ℝ) - PIN_Y) = 0
  exact norm2_eval _ _ 0 le_rfl (by rw [PIN_X, PIN_Y]; norm_num)

lemma c2_dist329 : dist2 ((280 : ℝ), (329 : ℝ)) (PIN_X, PIN_Y) = 101 := by
  rw [dist2]
  show norm2 ((280 : ℝ) - PIN_X, (329 : ℝ) - PIN_Y) = 101
  exact norm2_eval _ _ 101 (by norm_num) (by rw [PIN_X, PIN_Y]; norm_num)

lemma green_at_zero : greenEntry.reward 0 = some (-2) := by
  show (green_reward_func 0).map (fun r => -1 + r) = some (-2)
  rw [green_reward_func]
  norm_num [green_interp]

lemma green_at_101 : greenEntry.reward 101 = none := by
  show (green_reward_func 101).map (fun r => -1 + r) = none
  rw [green_reward_func]
  norm_num

lemma c2_landingA :
    landing_pos area_info (50, 0, 0) 0 0 c2s0 (0, 30) =
      some ((280 : ℝ), (430 : ℝ)) := by
  rw [landing_pos_vertical area_info 50 0 0 30 c2s0 teeEntry area_info_tee
    rfl (by norm_num [c2s0])]
  norm_num [c2s0, teeEntry]

lemma c2_landingB :
    landing_pos area_info (101, 0, 0) 0 0 c2s0b (0, 30) =
      some ((280 : ℝ), (329 : ℝ)) := by
  rw [landing_pos_vertical area_info 101 0 0 30 c2s0b teeEntry area_info_tee
    rfl (by norm_num [c2s0b])]
  norm_num [c2s0b, teeEntry]

lemma c2_stepA :
    step area_info testRaster2 10 (50, 0, 0) 0 0 c2s0 (0, 30) =
      some (c2s1, -2, true) := by
  simp only [step, c2_landingA]
  simp only [step_resolve, c2_pixel430, area_info_green, c2_dist430,
    green_at_zero]
  simp only [greenEntry]
  simp only [c2s0, c2s1, State.mk.injEq, Prod.mk.injEq]
  norm_num

lemma c2_stepB :
    step area_info testRaster2 10 (101, 0, 0) 0 0 c2s0b (0, 30) = none := by
  simp only [step, c2_landingB]
  simp only [step_resolve, c2_pixel329, area_info_green, c2_dist329,
    green_at_101]

/-- C2 (corrected): a step that lands on GREEN at distance d returns the
    reward -1 + interp(d) where interp is the piecewise-linear interpolation
    through (0, -1), (1, -1), (3, -2), (15, -3), (100, -3); moreover a
    returned reward exists only when d lies in [0, 100] (no clamping). -/
theorem C2_green_reward (raster : ℤ → ℤ → ℤ) (fuel : ℕ)
    (flight : ℝ × ℝ × ℝ) (z1 z2 : ℝ) (s : State) (action : ℝ × ℝ)
    (p : ℝ × ℝ) (out : State × ℝ × Bool)
    (hland : landing_pos area_info flight z1 z2 s action = some p)
    (hpix : get_pixel_on raster p = 80)
    (hstep : step area_info raster fuel flight z1 z2 s action = some out) :
    out.2.1 = -1 + green_interp (dist2 p (PIN_X, PIN_Y)) ∧
      0 ≤ dist2 p (PIN_X, PIN_Y) ∧ dist2 p (PIN_X, PIN_Y) ≤ 100 ∧
      green_interp 0 = -1 ∧ green_interp 1 = -1 ∧ green_interp 3 = -2 ∧
      green_interp 15 = -3 ∧ green_interp 100 = -3 := by
  rw [step_eq_resolve area_info raster fuel flight z1 z2 s action p hland]
    at hstep
  obtain ⟨h1, h2, h3⟩ := step_resolve_green raster fuel s p out hpix hstep
  refine ⟨h1, h2, h3, ?_, ?_, ?_, ?_, ?_⟩ <;> norm_num [green_interp]

/-- C2 witness: the concrete run landing on GREEN at the pin with all
    hypotheses discharged. -/
theorem C2_green_reward_witness :
    landing_pos area_info (50, 0, 0) 0 0 c2s0 (0, 30) =
        some ((280 : ℝ), (430 : ℝ)) ∧
      get_pixel_on testRaster2 ((280 : ℝ), (430 : ℝ)) = 80 ∧
      step area_info testRaster2 10 (50, 0, 0) 0 0 c2s0 (0, 30) =
        some (c2s1, -2, true) ∧
      (((c2s1, (-2 : ℝ), true)).2.1 =
          -1 + green_interp (dist2 ((280 : ℝ), (430 : ℝ)) (PIN_X, PIN_Y)) ∧
        0 ≤ dist2 ((280 : ℝ), (430 : ℝ)) (PIN_X, PIN_Y) ∧
        dist2 ((280 : ℝ), (430 : ℝ)) (PIN_X, PIN_Y) ≤ 100 ∧
        green_interp 0 = -1 ∧ green_interp 1 = -1 ∧ green_interp 3 = -2 ∧
        green_interp 15 = -3 ∧ green_interp 100 = -3) :=
  ⟨c2_landingA, c2_pixel430, c2_stepA,
    C2_green_reward testRaster2 10 (50, 0, 0) 0 0 c2s0 (0, 30)
      ((280 : ℝ), (430 : ℝ)) (c2s1, -2, true) c2_landingA c2_pixel430
      c2_stepA⟩

/-- C2 counterexample: the first run lands on GREEN at distance 0 and the
    step returns reward -2, not the -1 demanded by the control point (0, -1);
    the second run lands on GREEN at distance 101 and the step fails (the
    interpolation raises) instead of returning a clamped reward. -/
theorem C2_counterexample :
    step area_info testRaster2 10 (50, 0, 0) 0 0 c2s0 (0, 30) =
        some (c2s1, -2, true) ∧
      dist2 ((280 : ℝ), (430 : ℝ)) (PIN_X, PIN_Y) = 0 ∧
      (-2 : ℝ) ≠ -1 ∧
      step area_info testRaster2 10 (101, 0, 0) 0 0 c2s0b (0, 30) = none ∧
      dist2 ((280 : ℝ), (329 : ℝ)) (PIN_X, PIN_Y) = 101 :=
  ⟨c2_stepA, c2_dist430, by norm_num, c2_stepB, c2_dist329⟩

end GolfEnv
namespace GolfEnv

lemma pyRound_le_ceil (x : ℝ) : pyRound x ≤ ⌈x⌉ := by
  rw [pyRound]
  split_ifs with hfr hev
  · exact Int.floor_le_ceil x
  · have hlt : (⌊x⌋ : ℝ) < x := by
      have hx : Int.fract x = x - ⌊x⌋ := rfl
      rw [hx] at hfr
      linarith
    have : ⌊x⌋ < ⌈x⌉ := Int.lt_ceil.mpr hlt
    omega
  · rw [round_eq]
    have h1 : x + 1 / 2 < (⌈x⌉ : ℝ) + 1 := by
      have := Int.le_ceil x
      linarith
    have := Int.floor_lt.mpr (by exact_mod_cast h1)
    omega

lemma floor_le_pyRound (x : ℝ) : ⌊x⌋ ≤ pyRound x := by
  rw [pyRound]
  split_ifs with hfr hev
  · exact le_refl _
  · omega
  · rw [round_eq]
    exact Int.floor_le_floor (by linarith)

lemma pyRound_nonpos (x : ℝ) (h : x < 0) : pyRound x ≤ 0 :=
  le_trans (pyRound_le_ceil x) (Int.ceil_le.mpr (by exact_mod_cast h.le))

lemma le_pyRound_of_big (x : ℝ) (h : (499 : ℝ) < x) : 499 ≤ pyRound x :=
  le_trans (Int.le_floor.mpr (by exact_mod_cast h.le)) (floor_le_pyRound x)

/-- C4 (confirmed): the classification rounds the position to the nearest
    integer pixel (x0, y0); when that pixel is strictly inside the raster
    bounds it returns the literal raster value at the mirrored-row, column
    address (499 - y0, x0), and for every position with a coordinate outside
    the raster bounds it returns the out-of-image sentinel 0. -/
theorem C4_classify (raster : ℤ → ℤ → ℤ) (p : ℝ × ℝ) :
    (0 < pyRound p.1 ∧ pyRound p.1 < 499 ∧ 0 < pyRound p.2 ∧
        pyRound p.2 < 499 →
      get_pixel_on raster p = raster (499 - pyRound p.2) (pyRound p.1)) ∧
    (p.1 < 0 ∨ 499 < p.1 ∨ p.2 < 0 ∨ 499 < p.2 →
      get_pixel_on raster p = OUT_OF_IMG_INTENSITY) := by
  have e1 : IMG_SIZE_X - 1 = (499 : ℤ) := by norm_num [IMG_SIZE_X]
  have e2 : IMG_SIZE_Y - 1 = (499 : ℤ) := by norm_num [IMG_SIZE_Y]
  constructor
  · intro h
    simp only [get_pixel_on, e1, e2]
    rw [if_pos (is_within_two_iff.mpr ⟨h.1, h.2.1, h.2.2.1, h.2.2.2⟩)]
  · intro h
    simp only [get_pixel_on, e1, e2]
    rw [if_neg]
    intro hc
    rcases is_within_two_iff.mp hc with ⟨u1, u2, u3, u4⟩
    rcases h with hx | hx | hy | hy
    · exact absurd u1 (not_lt.mpr (pyRound_nonpos _ hx))
    · exact absurd u2 (not_lt.mpr (le_pyRound_of_big _ hx))
    · exact absurd u3 (not_lt.mpr (pyRound_nonpos _ hy))
    · exact absurd u4 (not_lt.mpr (le_pyRound_of_big _ hy))

/-- C4 witness: the interior point (201, 99) reads raster address (400, 201)
    and the outside point (-5, 250) reads the sentinel. -/
theorem C4_classify_witness :
    (0 < pyRound ((201 : ℝ), (99 : ℝ)).1 ∧
        pyRound ((201 : ℝ), (99 : ℝ)).1 < 499 ∧
        0 < pyRound ((201 : ℝ), (99 : ℝ)).2 ∧
        pyRound ((201 : ℝ), (99 : ℝ)).2 < 499) ∧
      get_pixel_on testRaster ((201 : ℝ), (99 : ℝ)) =
        testRaster (499 - pyRound ((201 : ℝ), (99 : ℝ)).2)
          (pyRound ((201 : ℝ), (99 : ℝ)).1) ∧
      (((-5 : ℝ), (250 : ℝ)).1 < 0 ∨ 499 < ((-5 : ℝ), (250 : ℝ)).1 ∨
        ((-5 : ℝ), (250 : ℝ)).2 < 0 ∨ 499 < ((-5 : ℝ), (250 : ℝ)).2) ∧
      get_pixel_on testRaster ((-5 : ℝ), (250 : ℝ)) = OUT_OF_IMG_INTENSITY := by
  have hin : 0 < pyRound ((201 : ℝ), (99 : ℝ)).1 ∧
      pyRound ((201 : ℝ), (99 : ℝ)).1 < 499 ∧
      0 < pyRound ((201 : ℝ), (99 : ℝ)).2 ∧
      pyRound ((201 : ℝ), (99 : ℝ)).2 < 499 := by
    have h1 : pyRound ((201 : ℝ), (99 : ℝ)).1 = 201 := by
      show pyRound ((201 : ℝ)) = 201
      rw [show ((201 : ℝ)) = (((201 : ℤ)) : ℝ) by norm_num, pyRound_intCast]
    have h2 : pyRound ((201 : ℝ), (99 : ℝ)).2 = 99 := by
      show pyRound ((99 : ℝ)) = 99
      rw [show ((99 : ℝ)) = (((99 : ℤ)) : ℝ) by norm_num, pyRound_intCast]
    rw [h1, h2]
    norm_num
  have hout : ((-5 : ℝ), (250 : ℝ)).1 < 0 ∨ 499 < ((-5 : ℝ), (250 : ℝ)).1 ∨
      ((-5 : ℝ), (250 : ℝ)).2 < 0 ∨ 499 < ((-5 : ℝ), (250 : ℝ)).2 := by
    left
    norm_num
  exact ⟨hin, (C4_classify testRaster ((201 : ℝ), (99 : ℝ))).1 hin, hout,
    (C4_classify testRaster ((-5 : ℝ), (250 : ℝ))).2 hout⟩

/-- C3 (code_bug): with include_equality=True the bound test of util.py
    rejects a point whose coordinate equals a bound, and with
    include_equality=False it accepts it: the two branches implement the
    opposite of what the flag name and the spec state.  The claim expects
    true at ([0,0], [10,10], [0,5], inclusive=true). -/
theorem C3_is_within_inverted :
    Util.is_within [(0 : ℤ), 0] [10, 10] [0, 5] true = false ∧
      Util.is_within [(0 : ℤ), 0] [10, 10] [0, 5] false = true := by
  constructor
  · rfl
  · rfl

/-- A misconfigured terrain table for C7: both WATER (5) and the
    out-of-image sentinel (0) are mapped to the WATER entry, whose on-land
    action is SHORE, so no position along any ray ever leaves SHORE. -/
noncomputable def misconfiguredTable (code : ℤ) : Option AreaEntry :=
  if code = 5 ∨ code = 0 then some waterEntry else area_info code

/-- A raster that is WATER everywhere, for C7. -/
def waterRaster : ℤ → ℤ → ℤ := fun _ _ => 5

/-- C7 (code_bug): the source drift loop has no iteration cap and no
    ShoreResolutionError; on a misconfigured table in which no non-SHORE
    terrain exists along the walk, the loop never exits: for every finite
    fuel the fuel-indexed model of the while-True loop returns none, from
    every start and for every direction. -/
theorem C7_walk_never_terminates :
    ∀ (u : ℝ × ℝ) (fuel : ℕ) (pos : ℝ × ℝ),
      shore_walk misconfiguredTable waterRaster u fuel pos = none := by
  intro u fuel
  induction fuel with
  | zero =>
    intro pos
    rfl
  | succ n ih =>
    intro pos
    rw [shore_walk_succ]
    have hcode : misconfiguredTable
        (get_pixel_on waterRaster (pos.1 + u.1, pos.2 + u.2)) =
        some waterEntry := by
      have hpix : get_pixel_on waterRaster (pos.1 + u.1, pos.2 + u.2) = 5 ∨
          get_pixel_on waterRaster (pos.1 + u.1, pos.2 + u.2) = 0 := by
        rw [get_pixel_on]
        split_ifs
        · left
          rfl
        · right
          rfl
      rcases hpix with h | h
      · rw [h]
        norm_num [misconfiguredTable]
      · rw [h]
        norm_num [misconfiguredTable]
    simp only [hcode]
    rw [if_pos (show waterEntry.on_land = OnLandAction.SHORE from rfl)]
    exact ih _

end GolfEnv
namespace GolfEnv

lemma reset_dist_eval (raster : ℤ → ℤ → ℤ) :
    (reset raster).distance_to_pin = Real.sqrt 99172 := by
  show Real.sqrt ((START_X - PIN_X) ^ 2 + (START_Y - PIN_Y) ^ 2) =
    Real.sqrt 99172
  rw [START_X, START_Y, PIN_X, PIN_Y]
  norm_num

/-- C8 (corrected): reset places the ball at the fixed start (256, 116) and
    yields distance_to_pin = sqrt((256-280)^2 + (116-430)^2) = sqrt 99172,
    which is 314.92 to two decimals (not 314.95). -/
theorem C8_reset_distance (raster : ℤ → ℤ → ℤ) :
    (reset raster).ball_pos = ((256 : ℝ), (116 : ℝ)) ∧
      (reset raster).distance_to_pin = Real.sqrt 99172 ∧
      |(reset raster).distance_to_pin - 314.92| ≤ 0.005 := by
  refine ⟨?_, reset_dist_eval raster, ?_⟩
  · show ((START_X, START_Y) : ℝ × ℝ) = ((256 : ℝ), (116 : ℝ))
    rw [START_X, START_Y]
  · rw [reset_dist_eval raster]
    have hsq := Real.sq_sqrt (show (0 : ℝ) ≤ 99172 by norm_num)
    have hpos := Real.sqrt_nonneg (99172 : ℝ)
    rw [abs_le]
    constructor
    · nlinarith [hsq, hpos]
    · nlinarith [hsq, hpos]

/-- C8 counterexample: the distance returned by reset is not 314.95 to two
    decimals; it differs from 314.95 by more than 0.005. -/
theorem C8_counterexample :
    ¬ |(reset (fun _ _ => 70)).distance_to_pin - 314.95| ≤ 0.005 := by
  rw [reset_dist_eval]
  intro h
  have h1 := (abs_le.mp h).1
  have hsq := Real.sq_sqrt (show (0 : ℝ) ≤ 99172 by norm_num)
  have hpos := Real.sqrt_nonneg (99172 : ℝ)
  nlinarith [hsq, hpos, h1]

lemma norm2_sub_comm (a b c d : ℝ) :
    norm2 (a - b, c - d) = norm2 (b - a, d - c) := by
  show Real.sqrt ((a - b) ^ 2 + (c - d) ^ 2) =
    Real.sqrt ((b - a) ^ 2 + (d - c) ^ 2)
  congr 1
  ring

/-- C9 (confirmed): with both dispersion parameters zero, a step with action
    angle 0 lands exactly flight_distance times the distance coefficient of
    the pre-shot terrain along the unit vector from the ball toward the pin,
    for every value of the two Gaussian draws. -/
theorem C9_noise_free_shot (F z1 z2 club : ℝ) (s : State) (e : AreaEntry)
    (p : ℝ × ℝ)
    (htab : area_info s.landed_pixel_intensity = some e)
    (hne : s.ball_pos ≠ (PIN_X, PIN_Y))
    (hland : landing_pos area_info (F, 0, 0) z1 z2 s (0, club) = some p) :
    p = (s.ball_pos.1 + F * e.dist_coef *
          ((PIN_X - s.ball_pos.1) / dist2 s.ball_pos (PIN_X, PIN_Y)),
        s.ball_pos.2 + F * e.dist_coef *
          ((PIN_Y - s.ball_pos.2) / dist2 s.ball_pos (PIN_X, PIN_Y))) := by
  have hz : ¬(PIN_X - s.ball_pos.1 = 0 ∧ PIN_Y - s.ball_pos.2 = 0) := by
    intro hc
    apply hne
    have h1 : s.ball_pos.1 = PIN_X := by linarith [hc.1]
    have h2 : s.ball_pos.2 = PIN_Y := by linarith [hc.2]
    exact Prod.ext h1 h2
  simp only [landing_pos, htab] at hland
  rw [deg_to_rad_zero, zero_add, rotation_mulVec] at hland
  simp only [Matrix.cons_val_zero, Matrix.cons_val_one, Matrix.head_cons]
    at hland
  rw [cos_atan2 (PIN_Y - s.ball_pos.2) (PIN_X - s.ball_pos.1) hz,
    sin_atan2 (PIN_Y - s.ball_pos.2) (PIN_X - s.ball_pos.1)] at hland
  have hd : norm2 (PIN_X - s.ball_pos.1, PIN_Y - s.ball_pos.2) =
      dist2 s.ball_pos (PIN_X, PIN_Y) := by
    show _ = norm2 (s.ball_pos.1 - PIN_X, s.ball_pos.2 - PIN_Y)
    exact norm2_sub_comm PIN_X s.ball_pos.1 PIN_Y s.ball_pos.2
  rw [hd] at hland
  have hp := (Option.some.inj hland).symm
  rw [hp]
  simp only [Prod.mk.injEq]
  constructor
  · ring
  · ring

/-- C9 witness: the concrete noise-free run from (280, 50) on the tee. -/
theorem C9_noise_free_shot_witness :
    area_info cexS0.landed_pixel_intensity = some teeEntry ∧
      cexS0.ball_pos ≠ (PIN_X, PIN_Y) ∧
      landing_pos area_info (50, 0, 0) 0 0 cexS0 (0, 30) =
        some ((280 : ℝ), (100 : ℝ)) ∧
      (((280 : ℝ), (100 : ℝ)) : ℝ × ℝ) =
        (cexS0.ball_pos.1 + 50 * teeEntry.dist_coef *
          ((PIN_X - cexS0.ball_pos.1) / dist2 cexS0.ball_pos (PIN_X, PIN_Y)),
        cexS0.ball_pos.2 + 50 * teeEntry.dist_coef *
          ((PIN_Y - cexS0.ball_pos.2) /
            dist2 cexS0.ball_pos (PIN_X, PIN_Y))) := by
  have hne : cexS0.ball_pos ≠ (PIN_X, PIN_Y) := by
    rw [show cexS0.ball_pos = ((280 : ℝ), (50 : ℝ)) from rfl, PIN_X, PIN_Y]
    intro hc
    have h2 := congrArg Prod.snd hc
    norm_num at h2
  exact ⟨area_info_tee, hne, cex1_landing,
    C9_noise_free_shot 50 0 0 30 cexS0 teeEntry ((280 : ℝ), (100 : ℝ))
      area_info_tee hne cex1_landing⟩

/-- C10 (confirmed): when the landing position differs from the pin, the
    normalisation of the SHORE drift direction divides by a nonzero norm and
    produces a unit vector. -/
theorem C10_from_pin_unit_safe (p : ℝ × ℝ) (hp : p ≠ (PIN_X, PIN_Y)) :
    norm2 (p.1 - PIN_X, p.2 - PIN_Y) ≠ 0 ∧
      norm2 (from_pin_unit p) = 1 := by
  have hnz : ¬(p.1 - PIN_X = 0 ∧ p.2 - PIN_Y = 0) := by
    intro hc
    apply hp
    have h1 : p.1 = PIN_X := by linarith [hc.1]
    have h2 : p.2 = PIN_Y := by linarith [hc.2]
    exact Prod.ext h1 h2
  have hsum : 0 < (p.1 - PIN_X) ^ 2 + (p.2 - PIN_Y) ^ 2 := by
    rcases not_and_or.mp hnz with h | h
    · nlinarith [sq_nonneg (p.2 - PIN_Y), sq_nonneg (p.1 - PIN_X),
        sq_pos_of_ne_zero h]
    · nlinarith [sq_nonneg (p.1 - PIN_X), sq_nonneg (p.2 - PIN_Y),
        sq_pos_of_ne_zero h]
  have hpos : 0 < norm2 (p.1 - PIN_X, p.2 - PIN_Y) := by
    show 0 < Real.sqrt ((p.1 - PIN_X) ^ 2 + (p.2 - PIN_Y) ^ 2)
    exact Real.sqrt_pos.mpr hsum
  have hn2 : (norm2 (p.1 - PIN_X, p.2 - PIN_Y)) ^ 2 =
      (p.1 - PIN_X) ^ 2 + (p.2 - PIN_Y) ^ 2 := by
    show (Real.sqrt ((p.1 - PIN_X) ^ 2 + (p.2 - PIN_Y) ^ 2)) ^ 2 = _
    exact Real.sq_sqrt hsum.le
  refine ⟨ne_of_gt hpos, ?_⟩
  show Real.sqrt (((p.1 - PIN_X) / norm2 (p.1 - PIN_X, p.2 - PIN_Y)) ^ 2 +
    ((p.2 - PIN_Y) / norm2 (p.1 - PIN_X, p.2 - PIN_Y)) ^ 2) = 1
  have harg : ((p.1 - PIN_X) / norm2 (p.1 - PIN_X, p.2 - PIN_Y)) ^ 2 +
      ((p.2 - PIN_Y) / norm2 (p.1 - PIN_X, p.2 - PIN_Y)) ^ 2 = 1 := by
    rw [div_pow, div_pow, div_add_div_same, hn2]
    exact div_self (ne_of_gt hsum)
  rw [harg, Real.sqrt_one]

/-- C10 witness: the point (280, 431), one unit above the pin. -/
theorem C10_from_pin_unit_safe_witness :
    (((280 : ℝ), (431 : ℝ)) : ℝ × ℝ) ≠ (PIN_X, PIN_Y) ∧
      norm2 (((280 : ℝ), (431 : ℝ)).1 - PIN_X,
        ((280 : ℝ), (431 : ℝ)).2 - PIN_Y) ≠ 0 ∧
      norm2 (from_pin_unit ((280 : ℝ), (431 : ℝ))) = 1 := by
  have hp : (((280 : ℝ), (431 : ℝ)) : ℝ × ℝ) ≠ (PIN_X, PIN_Y) := by
    rw [PIN_X, PIN_Y]
    intro hc
    have h2 := congrArg Prod.snd hc
    norm_num at h2
  obtain ⟨h1, h2⟩ := C10_from_pin_unit_safe ((280 : ℝ), (431 : ℝ)) hp
  exact ⟨hp, h1, h2⟩

end GolfEnv
namespace GolfEnv

/-- C7 witness: the divergence instantiated at a concrete direction, fuel
    and start position. -/
theorem C7_walk_never_terminates_witness :
    shore_walk misconfiguredTable waterRaster (0, -1) 1000
      ((280 : ℝ), (100 : ℝ)) = none :=
  C7_walk_never_terminates (0, -1) 1000 ((280 : ℝ), (100 : ℝ))

/-- C8 witness: the reset facts at a concrete raster. -/
theorem C8_reset_distance_witness :
    (reset (fun _ _ => 70)).ball_pos = ((256 : ℝ), (116 : ℝ)) ∧
      (reset (fun _ _ => 70)).distance_to_pin = Real.sqrt 99172 ∧
      |(reset (fun _ _ => 70)).distance_to_pin - 314.92| ≤ 0.005 :=
  C8_reset_distance (fun _ _ => 70)

end GolfEnv
